import Mathlib

/-
Verification development for the sherlock error-classification package.

The repository contains three revisions of the same Go package:
  - src/sherlock.go          : scope-resolver revision (global registry table
                               keyed by the caller's directory; lookup with
                               four rule kinds; panics carry plain errors)
  - src/unnamed/part_000     : failure-record revision with a detect flag
                               (Assert / Detect / Investigation / Catch)
  - src/unnamed/part_001     : failure-record revision with a per-Sherlock
                               registry and classifier (error method)

Modelling conventions (shallow embedding):
  - Go error values are modelled by ErrorId: an opaque numeric identity plus
    the message returned by Error().  Exact-set and map lookups compare whole
    ErrorId values, mirroring Go interface identity for distinct instances.
  - Go maps are modelled by association lists; map iteration order (which Go
    leaves unspecified) becomes list order.
  - regexp.MatchString is abstracted by an explicit match function parameter
    (its error result is discarded by the source, so the model keeps a Bool).
  - panic / recover is modelled by explicit values: a function that can panic
    returns an Option of the panic payload (none = returned normally), and a
    deferred handler takes the recovered Option payload as input.
  - debug.Stack() is modelled by passing the text of the stack at the point
    of the call as an explicit argument, so a record containing that argument
    contains the trace captured at the failure point.
  - Writes to stderr (the diagnostic emissions of sherlock.go's lookup) are
    modelled by an explicit emission list in the function result.
-/

/-- A Go error value: an opaque identity together with its message text. -/
structure ErrorId where
  id : Nat
  msg : String
deriving DecidableEq, Repr

/-- One write to the diagnostic stream (stderr). -/
inductive Diag where
  /-- The line carrying the unexpected error's message text. -/
  | unexpectedMsg (msg : String)
  /-- The dump of a captured stack trace. -/
  | stackDump (stack : String)
deriving DecidableEq, Repr

/-- A value of Go interface type passed as a variadic argument. -/
inductive Val where
  /-- the untyped nil value -/
  | vnil
  /-- a non-nil value whose dynamic type implements error -/
  | verr (e : ErrorId)
  /-- a non-nil value whose dynamic type does not implement error -/
  | vother (s : String)
deriving DecidableEq, Repr

/-- Destination chosen by the diagnostic sink. -/
inductive Dest where
  | configured (path : String)
  | tempFile
deriving DecidableEq, Repr

/-- Result of a diagnostic-sink dispatch: either a record written to a
destination, or a fatal (unclassified) panic because no destination could be
obtained. -/
inductive SinkResult where
  | wrote (d : Dest) (content : String)
  | fatal
deriving DecidableEq, Repr

/-- Membership in a Go map used as a set (m[k] lookup returning ok). -/
def memSet (s : List ErrorId) (k : ErrorId) : Bool :=
  s.any (fun a => decide (a = k))

/-- Lookup in a Go map from errors to errors (m[k] returning val, ok). -/
def lookupMap (m : List (ErrorId × ErrorId)) (k : ErrorId) : Option ErrorId :=
  match m with
  | [] => none
  | (a, b) :: rest => if a = k then some b else lookupMap rest k

/-- sherlock.go: ErrUnexpected = errors.New("sherlock found an unexpected error"). -/
def ErrUnexpected : ErrorId := ⟨0, "sherlock found an unexpected error"⟩

/-- part_000: ErrInspect = errors.New("improper use of Detect function"). -/
def ErrInspect : ErrorId := ⟨1, "improper use of Detect function"⟩

namespace SherlockGo

/-- sherlock.go: the sherlock registry struct (errors, mappings, regexps,
regexpMappings). -/
structure sherlock where
  errors : List ErrorId
  mappings : List (ErrorId × ErrorId)
  regexps : List String
  regexpMappings : List (String × ErrorId)
deriving DecidableEq, Repr

/-- sherlock.go: newSherlock() allocates a registry with empty maps. -/
def newSherlock : sherlock := ⟨[], [], [], []⟩

/-- sherlock.go: the package-level state, i.e. the packages table.  Registry
pointers are modelled as indices into a store, so that two handles to the
same registry are the same index.  A nil Go map reads as an empty map, so
the lazy allocation of packages inside handler() is behaviourally the
identity and packages is modelled as a list that starts empty. -/
structure GlobalState where
  packages : List (String × Nat)
  store : List sherlock
deriving DecidableEq, Repr

/-- Lookup in the packages map (packages[caller] returning s, ok). -/
def assocFind : List (String × Nat) → String → Option Nat
  | [], _ => none
  | (a, i) :: rest, k => if a = k then some i else assocFind rest k

/-- sherlock.go handler(): return the registry bound to the caller's scope
key, creating and publishing a fresh one on first use.  The result is the
new global state together with the index (pointer) of the registry. -/
def handler (g : GlobalState) (k : String) : GlobalState × Nat :=
  match assocFind g.packages k with
  | some i => (g, i)
  | none =>
      ({ packages := (k, g.store.length) :: g.packages,
         store := g.store ++ [newSherlock] }, g.store.length)

/-- Replace the element at an index of the store in place (a write through a
registry pointer); out-of-range writes cannot arise from handler results. -/
def updateAt : List sherlock → Nat → (sherlock → sherlock) → List sherlock
  | [], _, _ => []
  | x :: xs, 0, f => f x :: xs
  | x :: xs, Nat.succ n, f => x :: updateAt xs n f

/-- Go set insertion s.errors[err] = true (inserting an already present key
leaves the map unchanged). -/
def insertSet (l : List ErrorId) (e : ErrorId) : List ErrorId :=
  if memSet l e then l else e :: l

/-- Write s.errors[err] = true through the registry pointer i. -/
def storeInsert (g : GlobalState) (i : Nat) (e : ErrorId) : GlobalState :=
  let ins := fun s => { s with errors := insertSet s.errors e }
  { g with store := updateAt g.store i ins }

/-- Dereference a registry pointer. -/
def regAt (g : GlobalState) (i : Nat) : sherlock :=
  (g.store[i]?).getD newSherlock

/-- Every published registry pointer points into the store.  This holds for
every state reachable through the package API (handler only hands out
indices of elements it has appended). -/
def wellFormed (g : GlobalState) : Bool :=
  g.packages.all (fun p => decide (p.2 < g.store.length))

/-- sherlock.go Register(err): resolve the caller's registry via handler and
set s.errors[err] = true through the returned pointer. -/
def Register (g : GlobalState) (k : String) (err : ErrorId) : GlobalState :=
  let r := handler g k
  storeInsert r.1 r.2 err

/-- The loop over s.regexpMappings: first entry whose regex matches str.
matchR abstracts regexp.MatchString (whose error is discarded by the
source). -/
def regexMapFind (matchR : String → String → Bool)
    (l : List (String × ErrorId)) (str : String) : Option ErrorId :=
  match l with
  | [] => none
  | (key, val) :: rest =>
      if matchR key str then some val else regexMapFind matchR rest str

/-- sherlock.go lookup(s, err, stack): the four-tier search, returning the
classified error together with the stderr emissions it performs. -/
def lookup (matchR : String → String → Bool) (s : sherlock) (err : ErrorId)
    (stack : String) : ErrorId × List Diag :=
  if memSet s.errors err then (err, [])
  else
    match lookupMap s.mappings err with
    | some val => (val, [])
    | none =>
        let str := err.msg
        if s.regexps.any (fun key => matchR key str) then (err, [])
        else
          match regexMapFind matchR s.regexpMappings str with
          | some val => (val, [])
          | none =>
              (ErrUnexpected,
               [Diag.unexpectedMsg err.msg, Diag.stackDump stack])

/-- A panic payload in the sherlock.go revision: this revision panics only
with plain error values, but any Go value can arrive at a deferred Catch. -/
inductive Payload where
  /-- a value implementing the error interface -/
  | err (e : ErrorId)
  /-- any other non-nil value -/
  | other (s : String)
deriving DecidableEq, Repr

/-- sherlock.go Assert(statement, err): panic with the raw err when the
statement is false; none models a normal return. -/
def Assert (statement : Bool) (err : ErrorId) : Option Payload :=
  if statement = false then some (Payload.err err) else none

/-- sherlock.go Try(vals...): inspect the last variadic value; a non-nil
non-error value returns normally; an error value panics with the result of
lookup on the caller's registry (passed explicitly here, as handler()
resolves it), emitting lookup's diagnostics.  An empty vals slice would be
an index-out-of-range runtime panic. -/
def Try (matchR : String → String → Bool) (s : sherlock) (vals : List Val)
    (stack : String) : Option Payload × List Diag :=
  match vals.getLast? with
  | none => (some (Payload.other "runtime error: index out of range"), [])
  | some x =>
      match x with
      | Val.vnil => (none, [])
      | Val.vother _ => (none, [])
      | Val.verr err =>
          let r := lookup matchR s err stack
          (some (Payload.err r.1), r.2)

/-- Outcome of a deferred handler: the unwind is absorbed leaving the output
slot in the given state, or the payload is re-raised. -/
inductive DeferOutcome where
  | absorbed (slot : Option ErrorId)
  | reraise (p : Payload)
deriving DecidableEq, Repr

/-- sherlock.go Catch(err *error): recover; when the recovered value is an
error write it through the slot; the unwind is always absorbed. -/
def Catch (slot : Option ErrorId) (r : Option Payload) : DeferOutcome :=
  match r with
  | none => DeferOutcome.absorbed slot
  | some p =>
      match p with
      | Payload.err x => DeferOutcome.absorbed (some x)
      | Payload.other _ => DeferOutcome.absorbed slot

end SherlockGo

namespace Part000

/-- part_000: the Sherlock struct.  The action callback field is a function
value; its invocation is modelled as data in the Investigation outcome, so
the struct keeps only the notebook path here. -/
structure Sherlock where
  notebook : String
deriving DecidableEq, Repr

/-- part_000: failure{detect, err, stack}. -/
structure failure where
  detect : Bool
  err : ErrorId
  stack : String
deriving DecidableEq, Repr

/-- A panic payload as seen by a deferred handler in the part_000 revision.
The revision itself panics with pointers to failure; a failure value, a
plain error, or anything else can still arrive from foreign code. -/
inductive Payload where
  /-- a value implementing the error interface -/
  | err (e : ErrorId)
  /-- a failure struct value (not a pointer) -/
  | failureVal (f : failure)
  /-- a pointer to a failure struct, as produced by Assert and Detect -/
  | failurePtr (f : failure)
  /-- any other non-nil value -/
  | other (s : String)
deriving DecidableEq, Repr

/-- part_000 Assert(statement, err): when the statement is false, panic with
a pointer to failure{false, err, debug.Stack()}; the stack argument is the
trace at the point of the call. -/
def Assert (statement : Bool) (err : ErrorId) (stack : String) :
    Option Payload :=
  if statement = false then some (Payload.failurePtr ⟨false, err, stack⟩)
  else none

/-- part_000 Detect(vals...): inspect the last variadic value; nil returns
normally; a non-error value fails the ok assertion, so Assert panics with
ErrInspect; an error value panics with a pointer to failure{true, err,
debug.Stack()}.  An empty vals slice would be an index-out-of-range runtime
panic. -/
def Detect (vals : List Val) (stack : String) : Option Payload :=
  match vals.getLast? with
  | none => some (Payload.other "runtime error: index out of range")
  | some x =>
      match x with
      | Val.vnil => none
      | Val.vother _ => Assert false ErrInspect stack
      | Val.verr err =>
          match Assert true ErrInspect stack with
          | some p => some p
          | none => some (Payload.failurePtr ⟨true, err, stack⟩)

/-- Record persisted by writeCaseFiles: the FAILURE line with the original
message followed by the STACK TRACE header and the captured trace. -/
def caseFileContent (fail : failure) : String :=
  "FAILURE: " ++ fail.err.msg ++ "\n" ++ "STACK TRACE:\n" ++ fail.stack ++ "\n"

/-- part_000 writeCaseFiles: use the configured notebook path when it is set
and can be removed and recreated (pathOk); otherwise fall back to a fresh
temporary file (tempOk tells whether its creation succeeds); with no
destination at all the dispatch panics with the I/O error (fatal). -/
def writeCaseFiles (s : Sherlock) (fail : failure) (pathOk tempOk : Bool) :
    SinkResult :=
  let viaPath : Option Dest :=
    if s.notebook = "" then none
    else if pathOk then some (Dest.configured s.notebook) else none
  match viaPath with
  | some d => SinkResult.wrote d (caseFileContent fail)
  | none =>
      if tempOk then SinkResult.wrote Dest.tempFile (caseFileContent fail)
      else SinkResult.fatal

/-- Outcome of a deferred Investigation. -/
inductive InvOutcome where
  /-- no unwind was in flight -/
  | noop
  /-- the payload was not a pointer to failure: the current stack is printed
  and the payload re-raised unchanged -/
  | reraise (p : Payload)
  /-- a recognized failure record was dispatched: the sink wrote the record
  and the action callback was invoked with (detect, err) -/
  | dispatch (sink : SinkResult) (actionArgs : Bool × ErrorId)
  /-- the sink could not obtain a destination and panicked -/
  | sinkPanic
deriving DecidableEq, Repr

/-- part_000 Investigation: recover; nil means no-op; a payload that is not
a pointer to failure is re-raised unchanged; a recognized record is handed
to writeCaseFiles and then to the action callback. -/
def Investigation (s : Sherlock) (pathOk tempOk : Bool)
    (r : Option Payload) : InvOutcome :=
  match r with
  | none => InvOutcome.noop
  | some (Payload.failurePtr f) =>
      match writeCaseFiles s f pathOk tempOk with
      | SinkResult.fatal => InvOutcome.sinkPanic
      | w => InvOutcome.dispatch w (f.detect, f.err)
  | some p => InvOutcome.reraise p

/-- Outcome of a deferred Catch (same shape as SherlockGo.DeferOutcome but
over this revision's payload type). -/
inductive DeferOutcome where
  | absorbed (slot : Option ErrorId)
  | reraise (p : Payload)
deriving DecidableEq, Repr

/-- part_000 Catch(err *error): recover; write the slot when the recovered
value implements error, or when it is a failure struct value (note: a value,
not the pointer Assert and Detect panic with); the unwind is always
absorbed. -/
def Catch (slot : Option ErrorId) (r : Option Payload) : DeferOutcome :=
  match r with
  | none => DeferOutcome.absorbed slot
  | some p =>
      match p with
      | Payload.err x => DeferOutcome.absorbed (some x)
      | Payload.failureVal y => DeferOutcome.absorbed (some y.err)
      | Payload.failurePtr _ => DeferOutcome.absorbed slot
      | Payload.other _ => DeferOutcome.absorbed slot

end Part000

namespace Part001

/-- part_001: the Sherlock struct with its registry.  The action callback
field is never invoked by this revision's Investigation, so it is omitted
from the model. -/
structure Sherlock where
  notebook : String
  registered : List ErrorId
  mappings : List (ErrorId × ErrorId)
  substrings : List (String × ErrorId)
  standard : Option ErrorId
deriving DecidableEq, Repr

/-- part_001: failure{err, stack} (this revision's record has no detect
flag). -/
structure failure where
  err : ErrorId
  stack : String
deriving DecidableEq, Repr

/-- The loop over s.substrings: first entry whose key is a prefix of the
message text (strings.HasPrefix). -/
def subMapFind (l : List (String × ErrorId)) (e : String) : Option ErrorId :=
  match l with
  | [] => none
  | (key, val) :: rest =>
      if key.isPrefixOf e then some val else subMapFind rest e

/-- part_001 (s *Sherlock).error(err): registered set, then mappings, then
substring prefixes, then the standard default, then the received error
unchanged.  The source performs no I/O in this function; the emission list,
kept for uniformity with the other revision's lookup, is accordingly empty
in every branch. -/
def error (s : Sherlock) (err : ErrorId) : ErrorId × List Diag :=
  if memSet s.registered err then (err, [])
  else
    match lookupMap s.mappings err with
    | some val => (val, [])
    | none =>
        let e := err.msg
        match subMapFind s.substrings e with
        | some val => (val, [])
        | none =>
            match s.standard with
            | some std => (std, [])
            | none => (err, [])

/-- A panic payload as seen by a deferred handler in the part_001 revision. -/
inductive Payload where
  /-- a value implementing the error interface -/
  | err (e : ErrorId)
  /-- a failure struct value (not a pointer) -/
  | failureVal (f : failure)
  /-- a pointer to a failure struct, as produced by Assert and Try -/
  | failurePtr (f : failure)
  /-- any other non-nil value -/
  | other (s : String)
deriving DecidableEq, Repr

/-- part_001 Assert(statement, err): when the statement is false, panic with
a pointer to failure{err, debug.Stack()}. -/
def Assert (statement : Bool) (err : ErrorId) (stack : String) :
    Option Payload :=
  if statement = false then some (Payload.failurePtr ⟨err, stack⟩) else none

/-- part_001 Try(vals...): inspect the last variadic value; nil or a
non-error value returns normally; an error value panics with a pointer to
failure{err, debug.Stack()}.  An empty vals slice would be an
index-out-of-range runtime panic. -/
def Try (vals : List Val) (stack : String) : Option Payload :=
  match vals.getLast? with
  | none => some (Payload.other "runtime error: index out of range")
  | some x =>
      match x with
      | Val.vnil => none
      | Val.vother _ => none
      | Val.verr err => some (Payload.failurePtr ⟨err, stack⟩)

/-- Record persisted by writeCaseFiles (same format as part_000). -/
def caseFileContent (fail : failure) : String :=
  "FAILURE: " ++ fail.err.msg ++ "\n" ++ "STACK TRACE:\n" ++ fail.stack ++ "\n"

/-- part_001 writeCaseFiles: identical to part_000 up to the record type. -/
def writeCaseFiles (s : Sherlock) (fail : failure) (pathOk tempOk : Bool) :
    SinkResult :=
  let viaPath : Option Dest :=
    if s.notebook = "" then none
    else if pathOk then some (Dest.configured s.notebook) else none
  match viaPath with
  | some d => SinkResult.wrote d (caseFileContent fail)
  | none =>
      if tempOk then SinkResult.wrote Dest.tempFile (caseFileContent fail)
      else SinkResult.fatal

/-- Outcome of a deferred Investigation in the part_001 revision (this
revision's Investigation never invokes the action callback). -/
inductive InvOutcome where
  /-- no unwind was in flight -/
  | noop
  /-- the payload was not a pointer to failure: the current stack is printed
  and the payload re-raised unchanged -/
  | reraise (p : Payload)
  /-- a recognized failure record was written by the sink -/
  | dispatch (sink : SinkResult)
  /-- the sink could not obtain a destination and panicked -/
  | sinkPanic
deriving DecidableEq, Repr

/-- part_001 Investigation: recover; nil means no-op; a payload that is not
a pointer to failure is re-raised unchanged; a recognized record is handed
to writeCaseFiles. -/
def Investigation (s : Sherlock) (pathOk tempOk : Bool)
    (r : Option Payload) : InvOutcome :=
  match r with
  | none => InvOutcome.noop
  | some (Payload.failurePtr f) =>
      match writeCaseFiles s f pathOk tempOk with
      | SinkResult.fatal => InvOutcome.sinkPanic
      | w => InvOutcome.dispatch w
  | some p => InvOutcome.reraise p

/-- Outcome of a deferred Catch in the part_001 revision. -/
inductive DeferOutcome where
  | absorbed (slot : Option ErrorId)
  | reraise (p : Payload)
deriving DecidableEq, Repr

/-- part_001 (s *Sherlock).Catch(err *error): recover; when the recovered
value implements error, or is a failure struct value, write the classified
error (s.error, which emits nothing) through the slot; the unwind is always
absorbed.  Note the value/pointer mismatch: Try and Assert panic with a
pointer to failure, which matches neither type assertion. -/
def Catch (s : Sherlock) (slot : Option ErrorId) (r : Option Payload) :
    DeferOutcome :=
  match r with
  | none => DeferOutcome.absorbed slot
  | some p =>
      match p with
      | Payload.err x => DeferOutcome.absorbed (some (error s x).1)
      | Payload.failureVal y => DeferOutcome.absorbed (some (error s y.err).1)
      | Payload.failurePtr _ => DeferOutcome.absorbed slot
      | Payload.other _ => DeferOutcome.absorbed slot

end Part001

/- Concrete inputs used in witnesses and counterexamples. -/

/-- An error whose message matches the registered prefix pattern of c1reg. -/
def c1x : ErrorId := ⟨2, "disk: boom"⟩

/-- The output of the direct mapping registered for c1x. -/
def c1y : ErrorId := ⟨3, "mapped output"⟩

/-- The output of the overlapping prefix pattern of c1reg. -/
def c1d : ErrorId := ⟨4, "disk error"⟩

/-- A part_001 registry with a direct mapping for c1x and an overlapping
prefix pattern that also matches c1x's message. -/
def c1reg : Part001.Sherlock := ⟨"", [], [(c1x, c1y)], [("disk:", c1d)], none⟩

/-- Scenario B input error E2. -/
def errE2 : ErrorId := ⟨5, "low-level failure"⟩

/-- Scenario B mapped error E3. -/
def errE3 : ErrorId := ⟨6, "domain failure"⟩

/-- A part_001 registry with the mapping errE2 to errE3. -/
def c2reg : Part001.Sherlock := ⟨"", [], [(errE2, errE3)], [], none⟩

/-- A concrete error asserted against. -/
def c4err : ErrorId := ⟨7, "invariant violated"⟩

/-- An error matching no rule anywhere. -/
def c5err : ErrorId := ⟨8, "mystery failure"⟩

/-- An empty part_001 registry with no standard error configured. -/
def c5reg : Part001.Sherlock := ⟨"", [], [], [], none⟩

/-- A part_000 Sherlock with a configured notebook path. -/
def c8s0 : Part000.Sherlock := ⟨"notes.txt"⟩

/-- A concrete part_000 failure record. -/
def c8f0 : Part000.failure := ⟨false, ⟨9, "boom"⟩, "trace text"⟩

/-- A part_001 Sherlock with a configured notebook path. -/
def c8s1 : Part001.Sherlock := ⟨"notes.txt", [], [], [], none⟩

/-- A concrete part_001 failure record. -/
def c8f1 : Part001.failure := ⟨⟨9, "boom"⟩, "trace text"⟩

/-- A sherlock.go registry with a bare regex and an overlapping regex
mapping for the same pattern. -/
def c10g : SherlockGo.sherlock :=
  ⟨[], [], ["disk"], [("disk", ⟨10, "regex mapped"⟩)]⟩

/-- An error whose message the registered regex matches. -/
def c10e : ErrorId := ⟨11, "disk: full"⟩

/-- A concrete matcher standing in for regexp.MatchString. -/
def matchTrue : String → String → Bool := fun _ _ => true

/-- A concrete matcher that matches nothing. -/
def matchNone : String → String → Bool := fun _ _ => false

/-- The empty global state of the sherlock.go revision. -/
def g7 : SherlockGo.GlobalState := ⟨[], []⟩

/-- A concrete error registered in the scope-resolution witness. -/
def e7 : ErrorId := ⟨12, "registered error"⟩

/- Helper lemmas. -/

namespace SherlockGo

/-- Inserting an error into a set makes membership true. -/
theorem memSet_insertSet (l : List ErrorId) (e : ErrorId) :
    memSet (insertSet l e) e = true := by
  unfold insertSet
  cases h : memSet l e with
  | true => simp [h]
  | false => simp [h, memSet]

/-- A successful packages lookup comes from an entry of the table. -/
theorem assocFind_mem {ps : List (String × Nat)} {k : String} {i : Nat}
    (h : assocFind ps k = some i) : (k, i) ∈ ps := by
  induction ps with
  | nil => simp [assocFind] at h
  | cons p rest ih =>
      obtain ⟨a, j⟩ := p
      by_cases hak : a = k
      · subst hak
        simp [assocFind] at h
        simp [h]
      · simp [assocFind, hak] at h
        exact List.mem_cons_of_mem _ (ih h)

/-- Reading back the index written by updateAt. -/
theorem updateAt_getElem (l : List sherlock) (n : Nat)
    (f : sherlock → sherlock) : (updateAt l n f)[n]? = (l[n]?).map f := by
  induction l generalizing n with
  | nil => simp [updateAt]
  | cons x xs ih =>
      cases n with
      | zero => simp [updateAt]
      | succ m => simp [updateAt, ih]

/-- The element appended at the end of the store is found at the old
length. -/
theorem getElem_append_length (l : List sherlock) (a : sherlock) :
    (l ++ [a])[l.length]? = some a := by
  induction l with
  | nil => rfl
  | cons x xs ih => simp [ih]

end SherlockGo

/- Claim theorems. -/

/-- C1: the classifier evaluates its tiers in the fixed order exact
membership, direct mapping, pattern match on the message, fallback, identity
passthrough, and returns the result of the first tier that matches; in
particular a registered direct mapping (x, y) yields y with no condition on
the pattern rules, so the mapping wins even when x's message also matches a
registered pattern — shown for the part_001 classifier and, in the last
clause, for the sherlock.go lookup as well. -/
theorem classifier_tier_order (s : Part001.Sherlock) (g : SherlockGo.sherlock)
    (m : String → String → Bool) (e y f : ErrorId) (stk : String) :
    (memSet s.registered e = true → Part001.error s e = (e, [])) ∧
    (memSet s.registered e = false → lookupMap s.mappings e = some y →
      Part001.error s e = (y, [])) ∧
    (memSet s.registered e = false → lookupMap s.mappings e = none →
      Part001.subMapFind s.substrings e.msg = some y →
      Part001.error s e = (y, [])) ∧
    (memSet s.registered e = false → lookupMap s.mappings e = none →
      Part001.subMapFind s.substrings e.msg = none → s.standard = some f →
      Part001.error s e = (f, [])) ∧
    (memSet s.registered e = false → lookupMap s.mappings e = none →
      Part001.subMapFind s.substrings e.msg = none → s.standard = none →
      Part001.error s e = (e, [])) ∧
    (memSet g.errors e = false → lookupMap g.mappings e = some y →
      SherlockGo.lookup m g e stk = (y, [])) := by
  refine ⟨?_, ?_, ?_, ?_, ?_, ?_⟩
  · intro h1
    simp [Part001.error, h1]
  · intro h1 h2
    simp [Part001.error, h1, h2]
  · intro h1 h2 h3
    simp [Part001.error, h1, h2, h3]
  · intro h1 h2 h3 h4
    simp [Part001.error, h1, h2, h3, h4]
  · intro h1 h2 h3 h4
    simp [Part001.error, h1, h2, h3, h4]
  · intro h1 h2
    simp [SherlockGo.lookup, h1, h2]

/-- C1 witness: in the concrete registry c1reg the error c1x has a direct
mapping to c1y and a prefix pattern ("disk:") that also matches its message
"disk: boom"; the classifier returns the mapped c1y. -/
theorem classifier_tier_order_witness : Part001.error c1reg c1x = (c1y, []) :=
  (classifier_tier_order c1reg SherlockGo.newSherlock matchNone c1x c1y c1y
    "stk").2.1 (by decide) (by decide)

/-- C2: evaluation at the failing input.  In the part_001 revision with the
mapping errE2 to errE3 registered, Try(errE2) panics with a pointer to a
failure record (a record type with no detected flag), the classifier would
map errE2 to errE3, and yet the deferred Catch leaves the caller's error
slot unchanged (nil): its two type assertions (error interface, failure
value) both fail on a pointer to failure. -/
theorem catch_does_not_write_mapped_error :
    Part001.Try [Val.verr errE2] "stk" =
      some (Part001.Payload.failurePtr ⟨errE2, "stk"⟩) ∧
    (Part001.error c2reg errE2).1 = errE3 ∧
    Part001.Catch c2reg none (Part001.Try [Val.verr errE2] "stk") =
      Part001.DeferOutcome.absorbed none := by
  refine ⟨rfl, by decide, rfl⟩

/-- C3 counterexample: a call whose trailing value is non-nil and not an
error returns normally from the Try entry points of the sherlock.go and
part_001 revisions — no unwind and no improper-use identity — refuting the
claim for Try. -/
theorem try_nonerror_returns_normally :
    SherlockGo.Try matchNone SherlockGo.newSherlock
      [Val.vother "not an error"] "stk" = (none, []) ∧
    Part001.Try [Val.vother "not an error"] "stk" = none := by
  exact ⟨rfl, rfl⟩

/-- C3 (amended): only the part_000 Detect entry point treats a trailing
non-nil non-error value as a programmer-misuse failure, unwinding with the
fixed improper-use identity ErrInspect and detect = false; the Try entry
points of the other two revisions return normally on the same input. -/
theorem detect_misuse_unwinds (vals : List Val) (str stk : String)
    (m : String → String → Bool) (g : SherlockGo.sherlock)
    (h : vals.getLast? = some (Val.vother str)) :
    Part000.Detect vals stk =
      some (Part000.Payload.failurePtr ⟨false, ErrInspect, stk⟩) ∧
    SherlockGo.Try m g vals stk = (none, []) ∧
    Part001.Try vals stk = none := by
  refine ⟨?_, ?_, ?_⟩ <;>
    simp [Part000.Detect, SherlockGo.Try, Part001.Try, h, Part000.Assert]

/-- C3 witness: Detect on a concrete non-error trailing value unwinds with
the improper-use record. -/
theorem detect_misuse_unwinds_witness :
    Part000.Detect [Val.vother "x"] "stk" =
      some (Part000.Payload.failurePtr ⟨false, ErrInspect, "stk"⟩) :=
  (detect_misuse_unwinds [Val.vother "x"] "x" "stk" matchNone
    SherlockGo.newSherlock (by decide)).1

/-- C4 counterexample: in the sherlock.go revision Assert(false, e) panics
with the bare error value itself — the unwind payload carries no failure
record, no captured trace and no detected flag — refuting the claim for this
revision's Assert. -/
theorem go_assert_panics_bare_error :
    SherlockGo.Assert false c4err = some (SherlockGo.Payload.err c4err) := rfl

/-- C4 (amended): Assert(true, e) always returns normally; Assert(false, e)
unwinds — in part_000 with a record containing e, the stack captured at the
Assert call site, and detect = false; in part_001 with a record containing e
and the stack at the call site but no detect field; and in sherlock.go with
the bare error e and no record at all. -/
theorem assert_behavior (e : ErrorId) (stk : String) :
    Part000.Assert false e stk =
      some (Part000.Payload.failurePtr ⟨false, e, stk⟩) ∧
    Part000.Assert true e stk = none ∧
    Part001.Assert false e stk =
      some (Part001.Payload.failurePtr ⟨e, stk⟩) ∧
    Part001.Assert true e stk = none ∧
    SherlockGo.Assert false e = some (SherlockGo.Payload.err e) ∧
    SherlockGo.Assert true e = none := by
  exact ⟨rfl, rfl, rfl, rfl, rfl, rfl⟩

/-- C5 counterexample: in the part_001 revision with an empty registry and
no standard error configured, the classifier returns the error unchanged but
produces no diagnostic emission at all (the source performs no I/O there),
refuting the claim's "exactly one diagnostic emission". -/
theorem passthrough_emits_no_diagnostic :
    Part001.error c5reg c5err = (c5err, []) := rfl

/-- C5 (amended): with no matching rule and no fallback, the part_001
classifier returns e unchanged and emits nothing, while the sherlock.go
lookup returns the generic ErrUnexpected identity and emits exactly one
diagnostic carrying e's message, followed by one stack dump. -/
theorem no_match_no_fallback (s : Part001.Sherlock) (g : SherlockGo.sherlock)
    (m : String → String → Bool) (e : ErrorId) (stk : String)
    (h1 : memSet s.registered e = false)
    (h2 : lookupMap s.mappings e = none)
    (h3 : Part001.subMapFind s.substrings e.msg = none)
    (h4 : s.standard = none)
    (k1 : memSet g.errors e = false)
    (k2 : lookupMap g.mappings e = none)
    (k3 : g.regexps.any (fun key => m key e.msg) = false)
    (k4 : SherlockGo.regexMapFind m g.regexpMappings e.msg = none) :
    Part001.error s e = (e, []) ∧
    SherlockGo.lookup m g e stk =
      (ErrUnexpected, [Diag.unexpectedMsg e.msg, Diag.stackDump stk]) := by
  constructor
  · simp [Part001.error, h1, h2, h3, h4]
  · simp [SherlockGo.lookup, k1, k2, k3, k4]

/-- C5 witness: the empty registries at the concrete unmatched error. -/
theorem no_match_no_fallback_witness :
    Part001.error c5reg c5err = (c5err, []) ∧
    SherlockGo.lookup matchNone SherlockGo.newSherlock c5err "stk" =
      (ErrUnexpected, [Diag.unexpectedMsg c5err.msg, Diag.stackDump "stk"]) :=
  no_match_no_fallback c5reg SherlockGo.newSherlock matchNone c5err "stk"
    (by decide) (by decide) (by decide) (by decide) (by decide) (by decide)
    (by decide) (by decide)

/-- C6: an unwind whose payload is not a pointer to a failure record
produced by Failure Capture is re-raised unchanged by the deferred
Investigation of both record revisions — for every payload shape other than
the failure pointer (plain errors, failure struct values, which Failure
Capture never produces, and arbitrary foreign values), the outcome is a
re-raise of the identical payload, never an absorption or a
classification. -/
theorem investigation_reraises_foreign (s0 : Part000.Sherlock)
    (s1 : Part001.Sherlock) (pOk tOk : Bool) (e : ErrorId) (str : String)
    (f0 : Part000.failure) (f1 : Part001.failure) :
    Part000.Investigation s0 pOk tOk (some (Part000.Payload.err e)) =
      Part000.InvOutcome.reraise (Part000.Payload.err e) ∧
    Part000.Investigation s0 pOk tOk (some (Part000.Payload.failureVal f0)) =
      Part000.InvOutcome.reraise (Part000.Payload.failureVal f0) ∧
    Part000.Investigation s0 pOk tOk (some (Part000.Payload.other str)) =
      Part000.InvOutcome.reraise (Part000.Payload.other str) ∧
    Part001.Investigation s1 pOk tOk (some (Part001.Payload.err e)) =
      Part001.InvOutcome.reraise (Part001.Payload.err e) ∧
    Part001.Investigation s1 pOk tOk (some (Part001.Payload.failureVal f1)) =
      Part001.InvOutcome.reraise (Part001.Payload.failureVal f1) ∧
    Part001.Investigation s1 pOk tOk (some (Part001.Payload.other str)) =
      Part001.InvOutcome.reraise (Part001.Payload.other str) := by
  exact ⟨rfl, rfl, rfl, rfl, rfl, rfl⟩

namespace SherlockGo

/-- C7: handler is idempotent for a fixed caller-location key: calling it
again right after a first call returns the same registry pointer and leaves
the global state unchanged; and a registration performed through the pointer
returned by the first call (Register resolves the registry the same way) is
visible in the registry returned by the subsequent call. -/
theorem handler_idempotent (g : GlobalState) (k : String) (e : ErrorId)
    (hwf : wellFormed g = true) :
    handler (handler g k).1 k = handler g k ∧
    (handler (Register g k e) k).1 = Register g k e ∧
    (handler (Register g k e) k).2 = (handler g k).2 ∧
    memSet (regAt (Register g k e) (handler (Register g k e) k).2).errors e
      = true := by
  cases hfind : assocFind g.packages k with
  | some i =>
      have hmem : (k, i) ∈ g.packages := assocFind_mem hfind
      have hlt : i < g.store.length := by
        have hall := List.all_eq_true.mp hwf ⟨k, i⟩ hmem
        exact of_decide_eq_true hall
      have hget : g.store[i]? = some g.store[i] := by
        exact List.getElem?_eq_getElem hlt
      have h1 : handler g k = (g, i) := by simp [handler, hfind]
      have hreg : Register g k e = storeInsert g i e := by
        simp [Register, h1]
      have hpack : (storeInsert g i e).packages = g.packages := rfl
      have h2 : handler (storeInsert g i e) k = (storeInsert g i e, i) := by
        simp [handler, hpack, hfind]
      refine ⟨?_, ?_, ?_, ?_⟩
      · rw [h1]
        exact h1
      · rw [hreg, h2]
      · rw [hreg, h2, h1]
      · rw [hreg, h2, regAt]
        show memSet (((updateAt g.store i _)[i]?).getD newSherlock).errors e
          = true
        rw [updateAt_getElem, hget]
        exact memSet_insertSet _ e
  | none =>
      set P := (k, g.store.length) :: g.packages with hP
      set g1 : GlobalState := ⟨P, g.store ++ [newSherlock]⟩ with hg1
      have h1 : handler g k = (g1, g.store.length) := by
        simp [handler, hfind, hg1, hP]
      have hfind2 : assocFind P k = some g.store.length := by
        simp [hP, assocFind]
      have h2 : handler g1 k = (g1, g.store.length) := by
        simp [handler]
        rw [hfind2]
      have hreg : Register g k e = storeInsert g1 g.store.length e := by
        simp only [Register, h1]
      have hfind3 : assocFind (storeInsert g1 g.store.length e).packages k =
          some g.store.length := hfind2
      have h3 : handler (storeInsert g1 g.store.length e) k =
          (storeInsert g1 g.store.length e, g.store.length) := by
        simp [handler]
        rw [hfind3]
      refine ⟨?_, ?_, ?_, ?_⟩
      · rw [h1]
        exact h2
      · rw [hreg, h3]
      · rw [hreg, h3, h1]
      · rw [hreg, h3]
        show memSet (regAt (storeInsert g1 g.store.length e)
          g.store.length).errors e = true
        rw [regAt]
        show memSet (((updateAt (g.store ++ [newSherlock]) g.store.length
          _)[g.store.length]?).getD newSherlock).errors e = true
        rw [updateAt_getElem, getElem_append_length]
        exact memSet_insertSet newSherlock.errors e

end SherlockGo

/-- C7 witness: from the empty global state, resolving scope "pkg" twice
gives the same registry pointer and unchanged state, and an error registered
through the first handle is visible through the second. -/
theorem handler_idempotent_witness :
    SherlockGo.handler (SherlockGo.handler g7 "pkg").1 "pkg" =
      SherlockGo.handler g7 "pkg" ∧
    memSet (SherlockGo.regAt (SherlockGo.Register g7 "pkg" e7)
      (SherlockGo.handler (SherlockGo.Register g7 "pkg" e7) "pkg").2).errors
      e7 = true := by
  have h := SherlockGo.handler_idempotent g7 "pkg" e7 (by decide)
  exact ⟨h.1, h.2.2.2⟩

/-- C8: the diagnostic sink persists "FAILURE: " followed by the original
error's message and then "STACK TRACE:" followed by the captured trace; the
record goes to the configured path when that path can be used, otherwise to
a freshly created temporary file, and when no writable destination can be
obtained the dispatch panics with the I/O error (fatal, not classified) — in
both record revisions. -/
theorem sink_record_format (s0 : Part000.Sherlock) (f0 : Part000.failure)
    (s1 : Part001.Sherlock) (f1 : Part001.failure) (tOk : Bool)
    (h0 : s0.notebook ≠ "") (h1 : s1.notebook ≠ "") :
    Part000.caseFileContent f0 =
      "FAILURE: " ++ f0.err.msg ++ "\n" ++ "STACK TRACE:\n" ++
        f0.stack ++ "\n" ∧
    Part000.writeCaseFiles s0 f0 true tOk =
      SinkResult.wrote (Dest.configured s0.notebook)
        (Part000.caseFileContent f0) ∧
    Part000.writeCaseFiles s0 f0 false true =
      SinkResult.wrote Dest.tempFile (Part000.caseFileContent f0) ∧
    Part000.writeCaseFiles s0 f0 false false = SinkResult.fatal ∧
    Part001.caseFileContent f1 =
      "FAILURE: " ++ f1.err.msg ++ "\n" ++ "STACK TRACE:\n" ++
        f1.stack ++ "\n" ∧
    Part001.writeCaseFiles s1 f1 true tOk =
      SinkResult.wrote (Dest.configured s1.notebook)
        (Part001.caseFileContent f1) ∧
    Part001.writeCaseFiles s1 f1 false true =
      SinkResult.wrote Dest.tempFile (Part001.caseFileContent f1) ∧
    Part001.writeCaseFiles s1 f1 false false = SinkResult.fatal := by
  refine ⟨rfl, ?_, ?_, ?_, rfl, ?_, ?_, ?_⟩ <;>
    simp [Part000.writeCaseFiles, Part001.writeCaseFiles, h0, h1]

/-- C8 witness: a concrete record written to a configured usable path. -/
theorem sink_record_format_witness :
    Part000.writeCaseFiles c8s0 c8f0 true true =
      SinkResult.wrote (Dest.configured c8s0.notebook)
        (Part000.caseFileContent c8f0) :=
  (sink_record_format c8s0 c8f0 c8s1 c8f1 true (by decide) (by decide)).2.1

/-- C9: every Catch variant absorbs every in-flight unwind — for every
payload shape the outcome is an absorption, never a re-raise; the slot is
written exactly when the payload is a plain error value or (in the two
record revisions) a failure struct value, with part_001 writing the
classified error; for any other payload, including the failure pointers the
record revisions actually panic with, the slot is left unchanged while the
unwind is still swallowed. -/
theorem catch_absorbs_everything (slot : Option ErrorId) (e : ErrorId)
    (str : String) (f0 : Part000.failure) (f1 : Part001.failure)
    (s1 : Part001.Sherlock) :
    SherlockGo.Catch slot none = SherlockGo.DeferOutcome.absorbed slot ∧
    SherlockGo.Catch slot (some (SherlockGo.Payload.err e)) =
      SherlockGo.DeferOutcome.absorbed (some e) ∧
    SherlockGo.Catch slot (some (SherlockGo.Payload.other str)) =
      SherlockGo.DeferOutcome.absorbed slot ∧
    Part000.Catch slot none = Part000.DeferOutcome.absorbed slot ∧
    Part000.Catch slot (some (Part000.Payload.err e)) =
      Part000.DeferOutcome.absorbed (some e) ∧
    Part000.Catch slot (some (Part000.Payload.failureVal f0)) =
      Part000.DeferOutcome.absorbed (some f0.err) ∧
    Part000.Catch slot (some (Part000.Payload.failurePtr f0)) =
      Part000.DeferOutcome.absorbed slot ∧
    Part000.Catch slot (some (Part000.Payload.other str)) =
      Part000.DeferOutcome.absorbed slot ∧
    Part001.Catch s1 slot none = Part001.DeferOutcome.absorbed slot ∧
    Part001.Catch s1 slot (some (Part001.Payload.err e)) =
      Part001.DeferOutcome.absorbed (some (Part001.error s1 e).1) ∧
    Part001.Catch s1 slot (some (Part001.Payload.failureVal f1)) =
      Part001.DeferOutcome.absorbed (some (Part001.error s1 f1.err).1) ∧
    Part001.Catch s1 slot (some (Part001.Payload.failurePtr f1)) =
      Part001.DeferOutcome.absorbed slot ∧
    Part001.Catch s1 slot (some (Part001.Payload.other str)) =
      Part001.DeferOutcome.absorbed slot := by
  exact ⟨rfl, rfl, rfl, rfl, rfl, rfl, rfl, rfl, rfl, rfl, rfl, rfl, rfl⟩

/-- C10: the scope-resolver revision has a fourth rule kind, a set of bare
regular expressions (RegisterRegex): when the error is not in the exact set
and not a mapping key and some registered regex matches its message, lookup
returns the error unchanged with no emission — with no condition on the
regex-to-error mappings, so the bare set is consulted before them. -/
theorem regex_set_passthrough (m : String → String → Bool)
    (g : SherlockGo.sherlock) (e : ErrorId) (stk : String)
    (h1 : memSet g.errors e = false)
    (h2 : lookupMap g.mappings e = none)
    (h3 : g.regexps.any (fun key => m key e.msg) = true) :
    SherlockGo.lookup m g e stk = (e, []) := by
  simp [SherlockGo.lookup, h1, h2, h3]

/-- C10 witness: a registry whose bare regex set and regex mappings both
match the message; the error passes through unchanged. -/
theorem regex_set_passthrough_witness :
    SherlockGo.lookup matchTrue c10g c10e "stk" = (c10e, []) :=
  regex_set_passthrough matchTrue c10g c10e "stk" (by decide) (by decide)
    (by decide)
